import Mathlib

/-!
Verification of the file-integrity-monitoring repository.

A shallow embedding of the repository's alerting, baseline and watch
components, followed by theorems about the embedded operations.

Sources embedded:
* `fim_alert.py` — `FIMAlertManager._should_send_alert`,
  `FIMAlertManager._update_alert_history`, `FIMAlertManager.send_alert`,
  `FIMAlertManager._load_config`.
* `project.py` — `calculate_hash`, `create_baseline`.
* `WatchDog.py` — `CustomLoggingEventHandler.should_ignore` and the
  `on_created` / `on_modified` / `on_deleted` / `on_moved` handlers.

Modelling conventions: timestamps (Python `datetime.now().timestamp()`
floats) are modelled as integers; Python dicts keyed by path strings are
modelled as association lists with an insert-or-replace update; the SMTP
transport is modelled by an explicit delivery outcome supplied to
`send_alert`; `logging` calls are modelled as emitted `(level, message)`
pairs.
-/

namespace FIM

/-- The logging levels the embedded code emits (`logging.info`,
`logging.warning`, `logging.error`). -/
inductive LogLevel where
  | info
  | warning
  | error
deriving DecidableEq, Repr

/-- Association-list lookup keyed by strings: the model of Python
`d[k]` / `k in d` on a dict. -/
def alookup {β : Type} : List (String × β) → String → Option β
  | [], _ => none
  | (q, v) :: rest, p => if q = p then some v else alookup rest p

/-- Association-list insert-or-replace: the model of Python
`d[k] = v` on a dict. -/
def aset {β : Type} : List (String × β) → String → β → List (String × β)
  | [], p, v => [(p, v)]
  | (q, w) :: rest, p, v =>
      if q = p then (p, v) :: rest else (q, w) :: aset rest p v

/-- Per-path throttle history: the model of
`FIMAlertManager.alert_history`, mapping a file path to the pair
`(last_alert_time, alert_count)` stored by the Python code. -/
abbrev Hist := List (String × Int × Nat)

/-- Embeds `FIMAlertManager._should_send_alert` (fim_alert.py, lines
163-191): if the path is known and `now - last_alert_time <
throttle_period` the alert is allowed iff `alert_count < max_alerts`;
otherwise (window lapsed, or first alert for the path) it is allowed. -/
def should_send_alert (period : Int) (maxAlerts : Nat) (hist : Hist)
    (path : String) (now : Int) : Bool :=
  match alookup hist path with
  | some (lastTime, count) =>
      if now - lastTime < period then decide (count < maxAlerts) else true
  | none => true

/-- Embeds `FIMAlertManager._update_alert_history` (fim_alert.py, lines
193-213): within the throttle period the stored pair becomes
`(now, count + 1)`; outside it, or for a new path, it becomes `(now, 1)`. -/
def update_alert_history (period : Int) (hist : Hist) (path : String)
    (now : Int) : Hist :=
  match alookup hist path with
  | some (lastTime, count) =>
      if now - lastTime < period then aset hist path (now, count + 1)
      else aset hist path (now, 1)
  | none => aset hist path (now, 1)

/-- Outcome of the external SMTP delivery attempted by
`FIMAlertManager._send_email`: either the message is delivered, or the
call raises an exception carrying a message. -/
inductive DeliveryOutcome where
  | delivered
  | failed (msg : String)

/-- Models Python `str.lower()` on the event-type strings: lowercases
each character. -/
def lowerString (s : String) : String :=
  ⟨s.data.map Char.toLower⟩

/-- Embeds the alert-level lookup in `FIMAlertManager.send_alert`
(fim_alert.py, line 106):
`self.config.get('AlertLevels', event_type.lower(), fallback='MEDIUM')`. -/
def get_alert_level (levels : List (String × String))
    (eventType : String) : String :=
  (alookup levels (lowerString eventType)).getD "MEDIUM"

/-- The observable result of one `FIMAlertManager.send_alert` call: its
boolean return value, the alert history after the call, how many times
`_send_email` (the notify capability) was invoked during the call, the
alert level computed for the event (none when the call was throttled
before computing it), and the log records emitted. -/
structure SendResult where
  sent : Bool
  hist : Hist
  notifyCalls : Nat
  alertLevel : Option String
  logs : List (LogLevel × String)

/-- Embeds `FIMAlertManager.send_alert` (fim_alert.py, lines 88-138).
If `_should_send_alert` denies, it logs and returns `False` with no
state change.  Otherwise it computes the alert level, invokes
`_send_email` once; on success it calls `_update_alert_history` and
returns `True`, on an exception it logs the error and returns `False`
without touching the history.  The two `datetime.now()` reads inside one
call are modelled by the single timestamp `now`. -/
def send_alert (period : Int) (maxAlerts : Nat)
    (levels : List (String × String)) (hist : Hist)
    (eventType path : String) (now : Int)
    (outcome : DeliveryOutcome) : SendResult :=
  if should_send_alert period maxAlerts hist path now then
    let lvl := get_alert_level levels eventType
    match outcome with
    | .delivered =>
        { sent := true
          hist := update_alert_history period hist path now
          notifyCalls := 1
          alertLevel := some lvl
          logs := [(.info, "Alert sent for " ++ eventType ++ " on " ++ path)] }
    | .failed msg =>
        { sent := false
          hist := hist
          notifyCalls := 1
          alertLevel := some lvl
          logs := [(.error, "Failed to send alert: " ++ msg)] }
  else
    { sent := false
      hist := hist
      notifyCalls := 0
      alertLevel := none
      logs := [(.info, "Alert throttled for " ++ path)] }

/-- The throttle-relevant effect of one `send_alert` call whose delivery
succeeds whenever it is attempted: the admission decision of
`_should_send_alert` combined with the `_update_alert_history` update
that `send_alert` performs after a successful delivery. -/
def admitStep (period : Int) (maxAlerts : Nat) (hist : Hist)
    (path : String) (now : Int) : Bool × Hist :=
  if should_send_alert period maxAlerts hist path now then
    (true, update_alert_history period hist path now)
  else (false, hist)

/-- Runs `admitStep` over a sequence of timestamps for one path,
starting from an empty history, collecting the admission decisions. -/
def runThrottle (period : Int) (maxAlerts : Nat) (path : String)
    (times : List Int) : List Bool × Hist :=
  times.foldl
    (fun (acc : List Bool × Hist) t =>
      let s := admitStep period maxAlerts acc.2 path t
      (acc.1 ++ [s.1], s.2))
    ([], [])

/-- Modelled from the spec's words, for comparison with the code: the
fixed-window counter the spec describes for `admit(path, now)` — no
state: create `(windowStart := now, count := 1)` and admit; window
lapsed (`now - windowStart` at least the window length, equality
counting as expired): reset to `(now, 1)` and admit; otherwise increment
the count, keeping `windowStart` fixed, and admit exactly when the
incremented count is at most the per-window maximum. -/
def specAdmit (window : Int) (maxAlerts : Nat) (st : Hist)
    (path : String) (now : Int) : Bool × Hist :=
  match alookup st path with
  | none => (true, aset st path (now, 1))
  | some (winStart, count) =>
      if window ≤ now - winStart then (true, aset st path (now, 1))
      else (decide (count + 1 ≤ maxAlerts), aset st path (winStart, count + 1))

/-- Runs the spec-modelled `specAdmit` over a sequence of timestamps for
one path, starting from an empty state. -/
def runSpecThrottle (window : Int) (maxAlerts : Nat) (path : String)
    (times : List Int) : List Bool × Hist :=
  times.foldl
    (fun (acc : List Bool × Hist) t =>
      let s := specAdmit window maxAlerts acc.2 path t
      (acc.1 ++ [s.1], s.2))
    ([], [])

/-- The `AlertLevels` section of the default configuration generated by
`FIMAlertManager._load_config` (fim_alert.py, lines 72-76): only the
three kinds `file_modified`, `file_created`, `file_deleted` are mapped. -/
def defaultAlertLevels : List (String × String) :=
  [("file_modified", "MEDIUM"), ("file_created", "LOW"),
   ("file_deleted", "HIGH")]

/-- The alert-relevant content of a parsed `alert_config.ini`. -/
structure AlertConfigFile where
  throttlePeriod : Int
  maxAlerts : Nat
  alertLevels : List (String × String)
deriving Repr

/-- The default configuration `_load_config` generates when the file is
absent: `throttle_period_seconds = 300`, `max_alerts_per_file = 3`, and
`defaultAlertLevels` (fim_alert.py, lines 57-82). -/
def defaultConfigFile : AlertConfigFile :=
  { throttlePeriod := 300
    maxAlerts := 3
    alertLevels := defaultAlertLevels }

/-- What the filesystem presents to `_load_config`: the file is missing,
or it parses to a configuration, or `configparser.read` fails on it with
a parse error. -/
inductive ConfigSource where
  | missing
  | parsed (c : AlertConfigFile)
  | malformed (err : String)

/-- Embeds `FIMAlertManager._load_config` (fim_alert.py, lines 45-86):
a missing file is replaced by the generated defaults; an existing file
is read with `configparser`, whose parse error on a malformed file
propagates out of `_load_config`, which has no handler for it. -/
def load_config : ConfigSource → Except String AlertConfigFile
  | .missing => .ok defaultConfigFile
  | .parsed c => .ok c
  | .malformed e => .error e

/-- Embeds `calculate_hash` (project.py, lines 100-110).  The filesystem
read and SHA-256 digest are abstracted into the oracle `hashFn`, which
returns the hex digest or `none` when the read raises `OSError` /
`PermissionError`.  On failure the code logs at ERROR level
(`logging.error(f"Failed to read ...")`) and returns `None`. -/
def calculate_hash (hashFn : String → Option String) (path : String) :
    Option String × List (LogLevel × String) :=
  match hashFn path with
  | some d => (some d, [])
  | none => (none, [(.error, "Failed to read " ++ path)])

/-- The loop of `create_baseline` (project.py, lines 124-128): hash each
discovered file, adding an entry to the baseline dict only when the hash
was computed, and accumulate the emitted log records. -/
def baselineScan (hashFn : String → Option String) :
    List String → List (String × String) → List (LogLevel × String) →
    List (String × String) × List (LogLevel × String)
  | [], acc, logs => (acc, logs)
  | f :: rest, acc, logs =>
      let r := calculate_hash hashFn f
      match r.1 with
      | some d => baselineScan hashFn rest (aset acc f d) (logs ++ r.2)
      | none => baselineScan hashFn rest acc (logs ++ r.2)

/-- Embeds `create_baseline` (project.py, lines 120-134) given the file
list that `find_files` discovered under the monitored directory: the
resulting path-to-digest mapping and the log records emitted while
building it. -/
def create_baseline (hashFn : String → Option String)
    (files : List String) :
    List (String × String) × List (LogLevel × String) :=
  baselineScan hashFn files [] []

/-- The rendering of the baseline dict that `json.dump(baseline, f)`
writes (project.py, line 132): a JSON object whose keys are the paths
and whose values are the digest strings.  Indentation whitespace is
abstracted away; the keys and values are the ones the code writes. -/
def jsonOfEntries (entries : List (String × String)) : String :=
  "\x7b" ++
    String.intercalate ", "
      (entries.map (fun e => "\"" ++ e.1 ++ "\": \"" ++ e.2 ++ "\"")) ++
  "\x7d"

/-- The artifact `create_baseline` persists: the snapshot file name
`baselines/baseline_<timestamp>.json` and its content. -/
structure BaselineSnapshot where
  fileName : String
  entries : List (String × String)
  doc : String
deriving DecidableEq, Repr

/-- Embeds the persistence step of `create_baseline` (project.py, lines
129-134): the snapshot identifier is the creation timestamp embedded in
the file name, and the document written is the JSON rendering of the
path-to-digest mapping. -/
def persist_baseline (hashFn : String → Option String)
    (files : List String) (timestamp : String) : BaselineSnapshot :=
  let b := create_baseline hashFn files
  { fileName := "baselines/baseline_" ++ timestamp ++ ".json"
    entries := b.1
    doc := jsonOfEntries b.1 }

/-- Whether `pat` starts the character list `s`. -/
def listStartsWith : List Char → List Char → Bool
  | _, [] => true
  | [], _ :: _ => false
  | a :: s, b :: t => a == b && listStartsWith s t

/-- Whether `pat` occurs as a contiguous run inside the character list. -/
def listHasSub (pat : List Char) : List Char → Bool
  | [] => listStartsWith [] pat
  | c :: rest => listStartsWith (c :: rest) pat || listHasSub pat rest

/-- Whether the string `pat` occurs inside the string `s`. -/
def strContainsSub (s pat : String) : Bool :=
  listHasSub pat.toList s.toList

/-- The filesystem events delivered by the watchdog observer to
`CustomLoggingEventHandler`. -/
inductive FSEvent where
  | created (srcPath : String) (isDirectory : Bool)
  | modified (srcPath : String) (isDirectory : Bool)
  | deleted (srcPath : String) (isDirectory : Bool)
  | moved (srcPath destPath : String) (isDirectory : Bool)

/-- The `src_path` of an event. -/
def FSEvent.srcPath : FSEvent → String
  | .created p _ => p
  | .modified p _ => p
  | .deleted p _ => p
  | .moved p _ _ => p

/-- The state of a `CustomLoggingEventHandler` (WatchDog.py, lines
9-13): the absolutised log-file path and the user name. -/
structure EventHandler where
  logFile : String
  user : String

/-- Embeds `CustomLoggingEventHandler.__init__` (WatchDog.py, lines
10-13): `self.log_file = os.path.abspath(log_file)`.  Path
absolutisation is abstracted into the oracle `abspath`. -/
def handlerInit (abspath : String → String)
    (logFileArg user : String) : EventHandler :=
  { logFile := abspath logFileArg, user := user }

/-- Embeds `CustomLoggingEventHandler.should_ignore` (WatchDog.py, lines
15-16): `os.path.abspath(path) == self.log_file`. -/
def should_ignore (abspath : String → String) (h : EventHandler)
    (p : String) : Bool :=
  abspath p == h.logFile

/-- The `'directory' if event.is_directory else 'file'` fragment of the
handler log messages. -/
def fileOrDir (isDirectory : Bool) : String :=
  if isDirectory then "directory" else "file"

/-- The final path component, modelling `os.path.basename` on
slash-separated paths. -/
def basename (p : String) : String :=
  ((p.splitOn "/").getLast?).getD p

/-- Embeds the four event handlers of `CustomLoggingEventHandler`
(WatchDog.py, lines 18-38): an event is dropped when `should_ignore`
holds on its source path (for moves, also on its destination path);
otherwise the corresponding log line is produced. -/
def handleEvent (abspath : String → String) (h : EventHandler) :
    FSEvent → Option String
  | .created p d =>
      if should_ignore abspath h p then none
      else some ("Created " ++ fileOrDir d ++ ": " ++ p ++
        " - userid:" ++ h.user)
  | .modified p d =>
      if should_ignore abspath h p then none
      else some ("Modified " ++ fileOrDir d ++ ": " ++ p ++
        " - userid:" ++ h.user)
  | .deleted p d =>
      if should_ignore abspath h p then none
      else some ("Deleted " ++ fileOrDir d ++ ": " ++ p ++
        " - userid:" ++ h.user)
  | .moved p q d =>
      if should_ignore abspath h p || should_ignore abspath h q then none
      else some ("Renamed " ++ fileOrDir d ++ ": to " ++ basename q ++
        " - userid:" ++ h.user)

end FIM

namespace FIM

/-- Looking up the key just set returns the value set. -/
theorem alookup_aset_self {β : Type} (h : List (String × β)) (p : String)
    (v : β) : alookup (aset h p v) p = some v := by
  induction h with
  | nil => simp [aset, alookup]
  | cons e rest ih =>
      obtain ⟨q, w⟩ := e
      by_cases hq : q = p
      · subst hq; simp [aset, alookup]
      · simp [aset, hq, alookup, ih]

/-- Setting one key leaves lookups of every other key unchanged. -/
theorem alookup_aset_ne {β : Type} (h : List (String × β)) (p q : String)
    (v : β) (hpq : p ≠ q) : alookup (aset h p v) q = alookup h q := by
  induction h with
  | nil => simp [aset, alookup, hpq]
  | cons e rest ih =>
      obtain ⟨k, w⟩ := e
      by_cases hk : k = p
      · subst hk; simp [aset, alookup, hpq]
      · simp [aset, hk, alookup, ih]

/-- `_update_alert_history` touches only the entry of the updated path. -/
theorem update_alert_history_lookup_ne (period : Int) (hist : Hist)
    (path q : String) (now : Int) (hq : path ≠ q) :
    alookup (update_alert_history period hist path now) q =
      alookup hist q := by
  unfold update_alert_history
  cases halt : alookup hist path with
  | none => simp [alookup_aset_ne _ _ _ _ hq]
  | some v =>
      obtain ⟨last, c⟩ := v
      by_cases ht : now - last < period <;>
        simp [ht, alookup_aset_ne _ _ _ _ hq]

/-- One-step characterisation of the throttle effect of a successful
`send_alert` call: the composition of `_should_send_alert` and
`_update_alert_history` as a single transition on the stored
`(last_alert_time, alert_count)` pair. -/
theorem admitStep_eq (period : Int) (maxAlerts : Nat) (hist : Hist)
    (path : String) (now : Int) :
    admitStep period maxAlerts hist path now =
      match alookup hist path with
      | none => (true, aset hist path (now, 1))
      | some (last, count) =>
          if now - last < period then
            (if count < maxAlerts then
              (true, aset hist path (now, count + 1))
            else (false, hist))
          else (true, aset hist path (now, 1)) := by
  unfold admitStep should_send_alert update_alert_history
  cases halt : alookup hist path with
  | none => simp
  | some v =>
      obtain ⟨last, c⟩ := v
      by_cases ht : now - last < period
      · by_cases hc : c < maxAlerts <;> simp [ht, hc]
      · simp [ht]

/-- Lookup characterisation of the `create_baseline` loop: a path found
in the resulting mapping carries its `hashFn` digest when it was among
the scanned files and its digest was computed, and otherwise falls back
to the accumulator. -/
theorem baselineScan_lookup (hashFn : String → Option String)
    (files : List String) (acc : List (String × String))
    (logs : List (LogLevel × String)) (p : String) :
    alookup (baselineScan hashFn files acc logs).1 p =
      if p ∈ files ∧ (hashFn p).isSome then hashFn p
      else alookup acc p := by
  induction files generalizing acc logs with
  | nil => simp [baselineScan]
  | cons f rest ih =>
      cases hfn : hashFn f with
      | some d =>
          rw [show baselineScan hashFn (f :: rest) acc logs =
              baselineScan hashFn rest (aset acc f d)
                (logs ++ (calculate_hash hashFn f).2) by
            simp [baselineScan, calculate_hash, hfn]]
          rw [ih]
          by_cases hp : p = f
          · subst hp
            simp only [hfn, alookup_aset_self, List.mem_cons, true_or,
              Option.isSome_some, and_true, if_pos, true_and]
            by_cases hmem : p ∈ rest <;> simp [hmem, hfn]
          · have hfp : f ≠ p := fun h => hp h.symm
            simp [List.mem_cons, hp, alookup_aset_ne _ _ _ _ hfp]
      | none =>
          rw [show baselineScan hashFn (f :: rest) acc logs =
              baselineScan hashFn rest acc
                (logs ++ (calculate_hash hashFn f).2) by
            simp [baselineScan, calculate_hash, hfn]]
          rw [ih]
          by_cases hp : p = f
          · subst hp; simp [hfn]
          · simp [List.mem_cons, hp]

/-- Log records already accumulated survive the rest of the scan. -/
theorem baselineScan_logs_mem (hashFn : String → Option String)
    (files : List String) (acc : List (String × String))
    (logs : List (LogLevel × String)) (l : LogLevel × String)
    (hl : l ∈ logs) : l ∈ (baselineScan hashFn files acc logs).2 := by
  induction files generalizing acc logs with
  | nil => simpa [baselineScan] using hl
  | cons f rest ih =>
      cases hfn : hashFn f with
      | some d =>
          rw [show baselineScan hashFn (f :: rest) acc logs =
              baselineScan hashFn rest (aset acc f d)
                (logs ++ (calculate_hash hashFn f).2) by
            simp [baselineScan, calculate_hash, hfn]]
          exact ih _ _ (List.mem_append_left _ hl)
      | none =>
          rw [show baselineScan hashFn (f :: rest) acc logs =
              baselineScan hashFn rest acc
                (logs ++ (calculate_hash hashFn f).2) by
            simp [baselineScan, calculate_hash, hfn]]
          exact ih _ _ (List.mem_append_left _ hl)

/-- Every scanned file whose digest could not be computed contributes an
ERROR-level log record to the scan output. -/
theorem baselineScan_failure_logged (hashFn : String → Option String)
    (files : List String) (acc : List (String × String))
    (logs : List (LogLevel × String)) (p : String)
    (hp : p ∈ files) (hnone : hashFn p = none) :
    (LogLevel.error, "Failed to read " ++ p) ∈
      (baselineScan hashFn files acc logs).2 := by
  induction files generalizing acc logs with
  | nil => cases hp
  | cons f rest ih =>
      rcases List.mem_cons.mp hp with h | h
      · subst h
        rw [show baselineScan hashFn (p :: rest) acc logs =
            baselineScan hashFn rest acc
              (logs ++ [(LogLevel.error, "Failed to read " ++ p)]) by
          simp [baselineScan, calculate_hash, hnone]]
        exact baselineScan_logs_mem _ _ _ _ _
          (List.mem_append_right _ (List.mem_singleton.mpr rfl))
      · cases hfn : hashFn f with
        | some d =>
            rw [show baselineScan hashFn (f :: rest) acc logs =
                baselineScan hashFn rest (aset acc f d)
                  (logs ++ (calculate_hash hashFn f).2) by
              simp [baselineScan, calculate_hash, hfn]]
            exact ih _ _ h
        | none =>
            rw [show baselineScan hashFn (f :: rest) acc logs =
                baselineScan hashFn rest acc
                  (logs ++ (calculate_hash hashFn f).2) by
              simp [baselineScan, calculate_hash, hfn]]
            exact ih _ _ h

/-- Membership characterisation of the baseline produced by
`create_baseline`: an entry maps `p` to `d` exactly when `p` was among
the scanned files and its digest computed to `d`. -/
theorem create_baseline_lookup (hashFn : String → Option String)
    (files : List String) (p d : String) :
    alookup (create_baseline hashFn files).1 p = some d ↔
      p ∈ files ∧ hashFn p = some d := by
  unfold create_baseline
  rw [baselineScan_lookup]
  by_cases hmem : p ∈ files
  · cases hfn : hashFn p <;> simp [hmem, hfn, alookup]
  · simp [hmem, alookup]

end FIM

namespace FIM

/-- C1 (amended): the throttle check is a per-path counter keyed on the
time of the most recent successful alert, not on a fixed window start.
One `send_alert` step with successful delivery behaves as: no state for
the path — admit and store `(now, 1)`; if `now` minus the stored
last-alert time has reached the throttle period (equality counting as
expired) — admit and reset to `(now, 1)`; otherwise admit exactly when
the stored count is below the per-window maximum, storing
`(now, count + 1)` — so the stored timestamp advances on every admitted
alert and the window slides; a denied call leaves the state untouched
and suppresses only the notification. -/
theorem claim_C1_throttle_last_alert_window (period : Int)
    (maxAlerts : Nat) (hist : Hist) (path : String) (now : Int) :
    admitStep period maxAlerts hist path now =
      match alookup hist path with
      | none => (true, aset hist path (now, 1))
      | some (last, count) =>
          if now - last < period then
            (if count < maxAlerts then
              (true, aset hist path (now, count + 1))
            else (false, hist))
          else (true, aset hist path (now, 1)) :=
  admitStep_eq period maxAlerts hist path now

/-- C1 counterexample: on admissions at times 0, 50, 59, 100 with a
60-second period and maximum 3, the code denies the fourth call (41
seconds after the third admitted alert) while the fixed-window counter
of the claim admits it (100 is past the window that started at 0), so
the throttle check is not a fixed-window counter. -/
theorem claim_C1_counterexample_not_fixed_window :
    (runThrottle 60 3 "p" [0, 50, 59, 100]).1 =
      [true, true, true, false] ∧
    (runSpecThrottle 60 3 "p" [0, 50, 59, 100]).1 =
      [true, true, true, true] ∧
    (runThrottle 60 3 "p" [0, 50, 59, 100]).1 ≠
      (runSpecThrottle 60 3 "p" [0, 50, 59, 100]).1 := by
  decide

/-- C2 (amended): with maximum 3 and period 60, five monotone admission
checks within 60 seconds on one path yield exactly three admissions
followed by two denials (admitted alerts delivering successfully), and a
sixth check is admitted once 60 or more seconds have elapsed since the
third admitted check — the reset is measured from the last admitted
alert, not from the window start. -/
theorem claim_C2_five_calls_then_reset (path : String)
    (t1 t2 t3 t4 t5 t6 : Int) (h12 : t1 ≤ t2) (h23 : t2 ≤ t3)
    (h34 : t3 ≤ t4) (h45 : t4 ≤ t5) (h5 : t5 < t1 + 60)
    (h6 : t3 + 60 ≤ t6) :
    (runThrottle 60 3 path [t1, t2, t3, t4, t5, t6]).1 =
      [true, true, true, false, false, true] := by
  have h21 : t2 - t1 < 60 := by omega
  have h32 : t3 - t2 < 60 := by omega
  have h43 : t4 - t3 < 60 := by omega
  have h53 : t5 - t3 < 60 := by omega
  have h63 : ¬ t6 - t3 < 60 := by omega
  simp [runThrottle, admitStep_eq, alookup, aset, h21, h32, h43, h53, h63]

/-- Witness for C2 (amended) at the concrete schedule where the five
checks all happen at time 0 and the sixth at time 61. -/
theorem claim_C2_witness :
    (0 : Int) ≤ 0 ∧ (0 : Int) + 60 ≤ 61 ∧
    (runThrottle 60 3 "p" [0, 0, 0, 0, 0, 61]).1 =
      [true, true, true, false, false, true] :=
  ⟨by decide, by decide,
    claim_C2_five_calls_then_reset "p" 0 0 0 0 0 61 (by decide) (by decide)
      (by decide) (by decide) (by decide) (by decide)⟩

/-- C2 counterexample: checks at times 0, 10, 20, 30, 40 within the
60-second window give three admissions and two denials, but the sixth
check at time 61 (window start plus 61 seconds) is denied — only 41
seconds have elapsed since the third admitted alert at time 20 — so the
claimed window reset at window+61s does not happen. -/
theorem claim_C2_counterexample_sixth_denied :
    (runThrottle 60 3 "p" [0, 10, 20, 30, 40, 61]).1 =
      [true, true, true, false, false, false] := by
  decide

/-- C3: when an admitted alert's delivery raises, `send_alert` logs the
failure at ERROR level, returns false to the caller, leaves the alert
history untouched, and has invoked the notify capability exactly once —
no automatic retry, and the exception is caught rather than crashing. -/
theorem claim_C3_delivery_failure_reported (period : Int)
    (maxAlerts : Nat) (levels : List (String × String)) (hist : Hist)
    (eventType path : String) (now : Int) (msg : String)
    (hadm : should_send_alert period maxAlerts hist path now = true) :
    (send_alert period maxAlerts levels hist eventType path now
      (.failed msg)).sent = false ∧
    (send_alert period maxAlerts levels hist eventType path now
      (.failed msg)).hist = hist ∧
    (send_alert period maxAlerts levels hist eventType path now
      (.failed msg)).notifyCalls = 1 ∧
    (LogLevel.error, "Failed to send alert: " ++ msg) ∈
      (send_alert period maxAlerts levels hist eventType path now
        (.failed msg)).logs := by
  simp [send_alert, hadm]

/-- Witness for C3 at a concrete admitted alert whose delivery fails. -/
theorem claim_C3_witness :
    should_send_alert 300 3 [] "/etc/passwd" 0 = true ∧
    ((send_alert 300 3 defaultAlertLevels [] "modified" "/etc/passwd" 0
        (.failed "boom")).sent = false ∧
     (send_alert 300 3 defaultAlertLevels [] "modified" "/etc/passwd" 0
        (.failed "boom")).hist = [] ∧
     (send_alert 300 3 defaultAlertLevels [] "modified" "/etc/passwd" 0
        (.failed "boom")).notifyCalls = 1 ∧
     (LogLevel.error, "Failed to send alert: " ++ "boom") ∈
       (send_alert 300 3 defaultAlertLevels [] "modified" "/etc/passwd" 0
         (.failed "boom")).logs) :=
  ⟨rfl, claim_C3_delivery_failure_reported 300 3 defaultAlertLevels []
    "modified" "/etc/passwd" 0 "boom" rfl⟩

/-- C4 (amended): the baseline produced by `create_baseline` contains an
entry exactly for those scanned files whose digest was computed
successfully, and every file the hasher fails on is skipped and logged —
at ERROR level (`logging.error`), not as a warning — while the scan
itself always completes. -/
theorem claim_C4_baseline_coverage (hashFn : String → Option String)
    (files : List String) (p d : String) :
    (alookup (create_baseline hashFn files).1 p = some d ↔
      p ∈ files ∧ hashFn p = some d) ∧
    (p ∈ files → hashFn p = none →
      (LogLevel.error, "Failed to read " ++ p) ∈
        (create_baseline hashFn files).2) :=
  ⟨create_baseline_lookup hashFn files p d,
   fun hp hn => baselineScan_failure_logged hashFn files [] [] p hp hn⟩

/-- Witness for C4 (amended): a concrete scan of two files where the
second is unreadable logs the ERROR record for it. -/
theorem claim_C4_witness :
    (LogLevel.error, "Failed to read " ++ "b.txt") ∈
      (create_baseline (fun f => if f = "a.txt" then some "h1" else none)
        ["a.txt", "b.txt"]).2 :=
  (claim_C4_baseline_coverage
    (fun f => if f = "a.txt" then some "h1" else none)
    ["a.txt", "b.txt"] "b.txt" "h1").2 (by decide) (by decide)

/-- C4 counterexample: scanning `a.txt` (readable) and `b.txt`
(unreadable) produces a baseline with the single entry for `a.txt` and
a log consisting solely of an ERROR-level record — no WARNING-level
record is ever emitted, contradicting the claim that the failure is
logged as a warning. -/
theorem claim_C4_counterexample_error_level :
    create_baseline (fun f => if f = "a.txt" then some "h1" else none)
      ["a.txt", "b.txt"] =
      ([("a.txt", "h1")], [(LogLevel.error, "Failed to read b.txt")]) ∧
    ((create_baseline (fun f => if f = "a.txt" then some "h1" else none)
      ["a.txt", "b.txt"]).2.all
        (fun l => l.1 != LogLevel.warning)) = true := by
  decide

/-- C5: the alert level attached by `send_alert` to an admitted event is
the value of the configured severity-by-kind mapping at the lowercased
event kind, and defaults to MEDIUM when the kind is unmapped. -/
theorem claim_C5_severity_lookup (period : Int) (maxAlerts : Nat)
    (levels : List (String × String)) (hist : Hist)
    (eventType path : String) (now : Int) (outcome : DeliveryOutcome)
    (hadm : should_send_alert period maxAlerts hist path now = true) :
    (send_alert period maxAlerts levels hist eventType path now
      outcome).alertLevel =
      some (match alookup levels (lowerString eventType) with
            | some v => v
            | none => "MEDIUM") := by
  cases outcome <;> simp [send_alert, hadm, get_alert_level] <;>
    cases alookup levels (lowerString eventType) <;> simp

/-- Witness for C5 at a concrete event kind that is unmapped in the
default mapping and therefore gets MEDIUM. -/
theorem claim_C5_witness :
    should_send_alert 300 3 [] "/etc/passwd" 0 = true ∧
    (send_alert 300 3 defaultAlertLevels [] "modified" "/etc/passwd" 0
        .delivered).alertLevel =
      some (match alookup defaultAlertLevels (lowerString "modified") with
            | some v => v
            | none => "MEDIUM") :=
  ⟨rfl, claim_C5_severity_lookup 300 3 defaultAlertLevels [] "modified"
    "/etc/passwd" 0 .delivered rfl⟩

/-- C6 (amended): when the configuration file is absent, `_load_config`
generates and uses defaults with a 300-second throttle period, at most 3
alerts per file, and the severity mapping LOW for `file_created`, MEDIUM
for `file_modified`, HIGH for `file_deleted` — with no entry for a
renamed kind; a malformed configuration file is not recovered. -/
theorem claim_C6_default_config :
    load_config .missing =
      .ok { throttlePeriod := 300, maxAlerts := 3,
            alertLevels := [("file_modified", "MEDIUM"),
              ("file_created", "LOW"), ("file_deleted", "HIGH")] } :=
  rfl

/-- C6 counterexample: the generated default severity mapping has no
entry for any renamed/moved kind (so the claimed "Medium for Renamed"
mapping entry does not exist), and a malformed configuration file makes
`_load_config` propagate the parse error instead of falling back to the
defaults. -/
theorem claim_C6_counterexample_no_renamed :
    alookup defaultConfigFile.alertLevels "file_renamed" = none ∧
    alookup defaultConfigFile.alertLevels "renamed" = none ∧
    alookup defaultConfigFile.alertLevels "moved" = none ∧
    load_config (.malformed "key without value") =
      .error "key without value" :=
  ⟨rfl, rfl, rfl, rfl⟩

/-- C7 (amended): the persisted baseline snapshot is named by the
creation timestamp (`baselines/baseline_<timestamp>.json`), and its
document is the JSON rendering of a plain path-to-hex-digest mapping
holding exactly the successfully hashed files — records carry no
per-record timestamp. -/
theorem claim_C7_snapshot_format (hashFn : String → Option String)
    (files : List String) (timestamp p d : String) :
    (persist_baseline hashFn files timestamp).fileName =
      "baselines/baseline_" ++ timestamp ++ ".json" ∧
    (persist_baseline hashFn files timestamp).doc =
      jsonOfEntries (persist_baseline hashFn files timestamp).entries ∧
    (alookup (persist_baseline hashFn files timestamp).entries p =
        some d ↔ p ∈ files ∧ hashFn p = some d) :=
  ⟨rfl, rfl, create_baseline_lookup hashFn files p d⟩

/-- C7 counterexample: a concrete snapshot over one file persists the
document mapping the path directly to the digest string; the document
contains no `recordedAt` field, contradicting the claimed per-record
`recordedAt` timestamp. -/
theorem claim_C7_counterexample_no_recordedAt :
    persist_baseline (fun f => if f = "a.txt" then some "h1" else none)
      ["a.txt"] "20240101_120000" =
      { fileName := "baselines/baseline_20240101_120000.json",
        entries := [("a.txt", "h1")],
        doc := "\x7b\"a.txt\": \"h1\"\x7d" } ∧
    strContainsSub
      (persist_baseline (fun f => if f = "a.txt" then some "h1" else none)
        ["a.txt"] "20240101_120000").doc "recordedAt" = false := by
  decide

/-- C8: an event whose (absolutised) path equals the handler's own log
artifact path is never turned into a log record, for every event kind —
created, modified, deleted and moved. -/
theorem claim_C8_self_reference_exclusion (abspath : String → String)
    (logFileArg user : String) (e : FSEvent)
    (hself : abspath e.srcPath = abspath logFileArg) :
    handleEvent abspath (handlerInit abspath logFileArg user) e = none := by
  cases e <;>
    simp_all [handleEvent, should_ignore, handlerInit, FSEvent.srcPath]

/-- Witness for C8: a created event on the log file itself produces no
record. -/
theorem claim_C8_witness :
    handleEvent id (handlerInit id "FIM_Logs.log" "briana")
      (.created "FIM_Logs.log" false) = none :=
  claim_C8_self_reference_exclusion id "FIM_Logs.log" "briana"
    (.created "FIM_Logs.log" false) rfl

/-- C9 (amended): an admission check with a timestamp earlier than the
stored last-alert time is absorbed into the window arithmetic: the
negative elapsed time counts as within the throttle period, so the call
is admitted exactly when the count is below the maximum (moving the
stored timestamp backwards to `now` on success) — no error is raised or
surfaced. -/
theorem claim_C9_non_monotonic_absorbed (period : Int) (maxAlerts : Nat)
    (hist : Hist) (path : String) (now last : Int) (count : Nat)
    (hlook : alookup hist path = some (last, count))
    (hmono : now < last) (hper : 0 < period) :
    admitStep period maxAlerts hist path now =
      if count < maxAlerts then (true, aset hist path (now, count + 1))
      else (false, hist) := by
  rw [admitStep_eq, hlook]
  have ht : now - last < period := by omega
  simp [ht]

/-- Witness for C9 (amended): time 50 against a stored last alert at
time 100. -/
theorem claim_C9_witness :
    alookup ([("p", ((100 : Int), 1))] : Hist) "p" = some (100, 1) ∧
    admitStep 300 3 [("p", ((100 : Int), 1))] "p" 50 =
      (if 1 < 3 then
        (true, aset ([("p", ((100 : Int), 1))] : Hist) "p" (50, 1 + 1))
      else (false, [("p", ((100 : Int), 1))])) :=
  ⟨by decide, claim_C9_non_monotonic_absorbed 300 3 _ "p" 50 100 1
    (by decide) (by decide) (by decide)⟩

/-- C9 counterexample: with the last alert stored at time 100 and a
check at the earlier time 50, the throttle check returns normally — the
alert is admitted and the state silently rewritten to the backwards
timestamp — instead of the violation being fatal and surfaced. -/
theorem claim_C9_counterexample_not_fatal :
    admitStep 300 3 [("p", ((100 : Int), 1))] "p" 50 =
      (true, [("p", ((50 : Int), 2))]) := by
  decide

/-- C10: whenever `send_alert` returns false — throttled or delivery
failed — the alert history is left entirely unchanged, and when it
returns true the history is exactly the `_update_alert_history` result,
which differs from the input history only at the alerted path. -/
theorem claim_C10_history_only_on_success (period : Int)
    (maxAlerts : Nat) (levels : List (String × String)) (hist : Hist)
    (eventType path : String) (now : Int) (outcome : DeliveryOutcome) :
    ((send_alert period maxAlerts levels hist eventType path now
        outcome).sent = false →
      (send_alert period maxAlerts levels hist eventType path now
        outcome).hist = hist) ∧
    ((send_alert period maxAlerts levels hist eventType path now
        outcome).sent = true →
      (send_alert period maxAlerts levels hist eventType path now
        outcome).hist = update_alert_history period hist path now ∧
      ∀ q : String, q ≠ path →
        alookup (send_alert period maxAlerts levels hist eventType path
          now outcome).hist q = alookup hist q) := by
  by_cases hadm : should_send_alert period maxAlerts hist path now = true
  · cases outcome with
    | delivered =>
        constructor
        · intro hsent
          simp [send_alert, hadm] at hsent
        · intro _
          refine ⟨by simp [send_alert, hadm], fun q hq => ?_⟩
          simp only [send_alert, hadm, if_true]
          exact update_alert_history_lookup_ne period hist path q now
            (Ne.symm hq)
    | failed msg =>
        constructor
        · intro _
          simp [send_alert, hadm]
        · intro hsent
          simp [send_alert, hadm] at hsent
  · have hb : should_send_alert period maxAlerts hist path now = false :=
      Bool.not_eq_true _ ▸ Bool.of_not_eq_true hadm
    constructor
    · intro _
      simp [send_alert, hb]
    · intro hsent
      simp [send_alert, hb] at hsent

/-- Witness for C10 at a concrete denied call: a delivery failure leaves
the empty history empty. -/
theorem claim_C10_witness :
    ((send_alert 300 3 defaultAlertLevels [] "modified" "p" 0
        (.failed "boom")).sent = false →
      (send_alert 300 3 defaultAlertLevels [] "modified" "p" 0
        (.failed "boom")).hist = []) ∧
    ((send_alert 300 3 defaultAlertLevels [] "modified" "p" 0
        (.failed "boom")).sent = true →
      (send_alert 300 3 defaultAlertLevels [] "modified" "p" 0
        (.failed "boom")).hist = update_alert_history 300 [] "p" 0 ∧
      ∀ q : String, q ≠ "p" →
        alookup (send_alert 300 3 defaultAlertLevels [] "modified" "p" 0
          (.failed "boom")).hist q = alookup [] q) :=
  claim_C10_history_only_on_success 300 3 defaultAlertLevels [] "modified"
    "p" 0 (.failed "boom")

end FIM
